import Mathlib

/-!
Verification development for the fastssm terraform provider's
retry-governed remote-state reconciliation engine
(internal/provider: parameter resource, data source, ephemeral resource,
failure classifier, gateway helpers, legacy-state migrator).

The Go code is shallowly embedded: Go error values become the inductive
`GoErr` (with `errors.As`-style chain traversals), terraform-framework
`types.String` values become `Option String` (null or a value), remote
calls are passed in as explicit results (an oracle fixed per call, so
every retry attempt of one call sees the same result), and each lifecycle
method becomes a pure function that also records the trace of remote
calls it issues together with whether each was wrapped in the
`retry.RetryContext` loop.
-/

namespace FastSSM

/-- Go error values reachable in this package.  `apiErr code` is a
`smithy.APIError` with the given `ErrorCode()` (this includes
`ssm_types.ParameterNotFound`, whose code is `"ParameterNotFound"`);
`quotaExceeded` is `ratelimit.QuotaExceededError`; `nfErr` is
`*retry.NotFoundError`; `emptyResultErr` is
`*tfresource.EmptyResultError`; `timeoutErr` is the retry loop's
deadline error wrapping the last failure; `wrapErr` is
`fmt.Errorf("...: %w", inner)`. -/
inductive GoErr where
  | apiErr (code : String)
  | quotaExceeded
  | nfErr
  | emptyResultErr
  | timeoutErr (inner : GoErr)
  | wrapErr (msg : String) (inner : GoErr)
  | otherErr (msg : String)
deriving DecidableEq, Repr

/-- Models `errors.As(err, &apiErr)` for `smithy.APIError`, returning the code of
the APIError found in the wrap chain (if any). -/
def GoErr.asAPIErrorCode : GoErr → Option String
  | .apiErr c => some c
  | .timeoutErr inner => inner.asAPIErrorCode
  | .wrapErr _ inner => inner.asAPIErrorCode
  | _ => none

/-- Models `errors.As(err, &ratelimited)` for `ratelimit.QuotaExceededError`. -/
def GoErr.isQuotaExceeded : GoErr → Bool
  | .quotaExceeded => true
  | .timeoutErr inner => inner.isQuotaExceeded
  | .wrapErr _ inner => inner.isQuotaExceeded
  | _ => false

/-- Models `errors.As(err, &notfound)` for `*ssm_types.ParameterNotFound` (the
AWS SDK error type, an APIError whose code is "ParameterNotFound"),
as tested inside `findParameterByName`. -/
def GoErr.isSSMParameterNotFound : GoErr → Bool
  | .apiErr c => c == "ParameterNotFound"
  | .timeoutErr inner => inner.isSSMParameterNotFound
  | .wrapErr _ inner => inner.isSSMParameterNotFound
  | _ => false

/-- Models `errors.As(err, &e)` for `**retry.NotFoundError`.  Per
`tfresource.EmptyResultError.As` (src/unnamed/part_005), an
`EmptyResultError` converts itself into a `retry.NotFoundError`, so it
also matches here. -/
def GoErr.isNotFoundKind : GoErr → Bool
  | .nfErr => true
  | .emptyResultErr => true
  | .timeoutErr inner => inner.isNotFoundKind
  | .wrapErr _ inner => inner.isNotFoundKind
  | _ => false

/-- The unwrap chain of an error: the error itself followed by everything
it (transitively) wraps. -/
def GoErr.chain : GoErr → List GoErr
  | .timeoutErr inner => .timeoutErr inner :: inner.chain
  | .wrapErr msg inner => .wrapErr msg inner :: inner.chain
  | e => [e]

/-- Embeds `isRetryableError` (src/unnamed/part_003:634-662; the variant
at src/internal/provider/parameter_resource.go:516-544 is identical up to
the dropped context argument).  `none` stands for a nil Go error.  The
logging calls and the fixed 5-second sleep are side effects with no
bearing on the returned classification and are not modelled. -/
def isRetryableError : Option GoErr → Bool
  | none => false
  | some err =>
    match err.asAPIErrorCode with
    | some code =>
      if code == "ThrottlingException" then true
      else err.isQuotaExceeded
    | none => err.isQuotaExceeded

/-- Modelled from the spec: the repository's `tfresource.NotFound` helper
(its source file is not under src/; only its callers and the
`EmptyResultError.As` conversion in src/unnamed/part_005 are) tests
whether the error chain contains the distinguished not-found kind, with
`EmptyResult` converting at the gateway boundary:
"**NotFound** — distinguished kind" / "**EmptyResult** — ... treated
identically to NotFound by conversion at the gateway boundary". -/
def tfresourceNotFound : Option GoErr → Bool
  | none => false
  | some e => e.isNotFoundKind

/-- Embeds the `retry.RetryContext` call-site pattern repeated verbatim at
every wrapped remote call in the source: the operation's error is
classified by `isRetryableError`; a retryable failure is wrapped as
`fmt.Errorf("temporary failure: %w, retrying...")` and retried until the
deadline, after which the loop yields a timeout error carrying the last
failure; a non-retryable failure is wrapped as
`fmt.Errorf("permanent failure: %w")` and returned at once.  The
embedding fixes one result per call (each attempt of the same call sees
the same oracle result), so a retryable failure always ends in the
deadline timeout. -/
def retryCall {α : Type} (attempt : Except GoErr α) : Except GoErr α :=
  match attempt with
  | .ok a => .ok a
  | .error e =>
    if isRetryableError (some e) then
      .error (.timeoutErr (.wrapErr "temporary failure" e))
    else
      .error (.wrapErr "permanent failure" e)

/-- The spec's retryability condition, stated in the spec's own words
over the error chain: the error is (or wraps) "a structured API error
exposing an error-code string" equal to the throttling code, or is (or
wraps) "a local quota/rate-limiter exhaustion signal"; a nil error is
never retryable. -/
def retryableSpec : Option GoErr → Prop
  | none => False
  | some e => GoErr.apiErr "ThrottlingException" ∈ e.chain ∨ GoErr.quotaExceeded ∈ e.chain

/-! ## Data model -/

/-- terraform-plugin-framework `types.String`: null (`none`) or a value.
State values are never unknown on the paths embedded here, so the
unknown state is not represented. -/
abbrev TFString := Option String

/-- Models `types.String.ValueString()`: the value, or `""` when null. -/
def tfValueString (s : TFString) : String := s.getD ""

/-- Models `types.Int64.ValueInt64()`: the value, or `0` when null. -/
def tfValueInt64 (s : Option Int) : Int := s.getD 0

/-- Embeds `ssm_types.Parameter` as consumed by this package: the `ARN`, `Name`,
`Value` and `DataType` pointers are dereferenced unconditionally by every
consumer on the success path, so the embedding carries them already
dereferenced; `Type` is a Go string type. -/
structure Parameter where
  arn : String
  name : String
  typ : String
  version : Int
  value : String
  dataType : String
deriving DecidableEq, Repr

/-- Embeds `ssm.GetParameterOutput`: the code checks `output == nil ||
output.Parameter == nil`, folded here into one optional payload. -/
structure GetParameterOutput where
  parameter : Option Parameter
deriving DecidableEq, Repr

/-- Embeds `ssm_types.ParameterMetadata`, restricted to the one field the code
reads.  `Description` is a pointer the code must guard: it is nil when
the remote parameter has no description. -/
structure ParameterMetadata where
  description : Option String
deriving DecidableEq, Repr

/-- Embeds `ssm.DescribeParametersOutput`. -/
structure DescribeParametersOutput where
  parameters : List ParameterMetadata
deriving DecidableEq, Repr

/-- Embeds `ssm.PutParameterOutput`, restricted to the field the code reads. -/
structure PutParameterOutput where
  version : Int
deriving DecidableEq, Repr

/-- Embeds `ssm.PutParameterInput` as built by Create/Update (KeyId and tags are
unsupported by this provider and never set). -/
structure PutParameterInput where
  name : Option String
  value : Option String
  allowedPattern : Option String
  typ : String
  dataType : Option String
  description : Option String := none
  overwrite : Option Bool := none
deriving DecidableEq, Repr

/-- Embeds `ParameterResourceModel` (src/unnamed/part_003:50-65).  Tags carry no
behaviour in this core (explicitly unsupported) and are modelled as an
opaque optional association list only so the migrator's field copy is
complete. -/
structure ParameterResourceModel where
  allowedPattern : TFString := none
  arn : TFString := none
  dataType : TFString := none
  description : TFString := none
  insecureValue : TFString := none
  name : TFString := none
  overwrite : Option Bool := none
  tags : Option (List (String × String)) := none
  typ : TFString := none
  value : TFString := none
  version : Option Int := none
deriving DecidableEq, Repr

/-- Embeds `ParameterDataSourceModel` (parameter_data_source.go:35-43). -/
structure ParameterDataSourceModel where
  arn : TFString := none
  insecureValue : TFString := none
  name : TFString := none
  typ : TFString := none
  value : TFString := none
  version : Option Int := none
  withDecryption : Option Bool := none
deriving DecidableEq, Repr

/-- Note `ParameterEphemeralModel` has exactly the fields of the data-source
model (parameter_data_source.go, ephemeral section). -/
abbrev ParameterEphemeralModel := ParameterDataSourceModel

/-- Embeds `awsSSMParameterResourceModel`
(src/internal/provider/aws_ssm_parameter_schema.go:17-33), the legacy
source schema accepted by the state migrator. -/
structure AwsSSMParameterResourceModel where
  allowedPattern : TFString := none
  arn : TFString := none
  dataType : TFString := none
  description : TFString := none
  id : TFString := none
  insecureValue : TFString := none
  keyId : TFString := none
  name : TFString := none
  overwrite : Option Bool := none
  tags : Option (List (String × String)) := none
  tagsAll : Option (List (String × String)) := none
  tier : TFString := none
  typ : TFString := none
  value : TFString := none
  version : Option Int := none
deriving DecidableEq, Repr

/-- A framework diagnostic: `AddError` produces severity `err`,
`AddWarning` severity `warn`. -/
inductive Severity where
  | err
  | warn
deriving DecidableEq, Repr

/-- A diagnostic, identified by its severity and summary string. -/
structure Diagnostic where
  severity : Severity
  summary : String
deriving DecidableEq, Repr

/-- The remote operations of the gateway. -/
inductive RemoteOp where
  | getParameter
  | putParameter
  | describeParameters
  | deleteParameter
deriving DecidableEq, Repr

/-- One remote call as issued by a lifecycle method: which operation, and
whether the call site wrapped it in the `retry.RetryContext` loop with
`isRetryableError` as the policy. -/
structure RemoteCall where
  op : RemoteOp
  retried : Bool
deriving DecidableEq, Repr

/-! ## Gateway -/

/-- Embeds `findParameterByName` (src/unnamed/part_003:664-689): an AWS
`ParameterNotFound` error is normalized to `retry.NotFoundError`; a
nominally successful call with no payload becomes `EmptyResultError`. -/
def findParameterByName (clientResult : Except GoErr GetParameterOutput) :
    Except GoErr Parameter :=
  match clientResult with
  | .error e => if e.isSSMParameterNotFound then .error .nfErr else .error e
  | .ok output =>
    match output.parameter with
    | none => .error .emptyResultErr
    | some p => .ok p

/-! ## Lifecycle operations (src/unnamed/part_003 variant, the current
resource implementation; the data source and ephemeral come from
parameter_data_source.go) -/

/-- Outcome of a resource Read: diagnostics in emission order, the state
written back (`none` when the method returns without `State.Set`), and
the trace of remote calls issued. -/
structure ReadResult where
  diags : List Diagnostic
  state : Option ParameterResourceModel
  calls : List RemoteCall
deriving DecidableEq, Repr

/-- The guard at src/unnamed/part_003:342-345: every directly-fetched
field (name, type, dataType, value) compared — via `ValueString()`, so a
null local field reads as `""` — against the fetched parameter. -/
def describeCondition (data : ParameterResourceModel) (res : Parameter) : Bool :=
  tfValueString data.name == res.name &&
  tfValueString data.typ == res.typ &&
  tfValueString data.dataType == res.dataType &&
  tfValueString data.value == res.value

/-- The field merge at src/unnamed/part_003:402-417: all directly-fetched
fields overwrite the local record; `value` is then re-checked for null
(dead: a freshly built string value is never null) and `insecure_value`
mirrors the fetched value exactly when the type is not SecureString. -/
def readMergeFetched (data : ParameterResourceModel) (res : Parameter) :
    ParameterResourceModel :=
  let data := { data with
    arn := some res.arn
    name := some res.name
    typ := some res.typ
    version := some res.version
    dataType := some res.dataType }
  let data := { data with value := some res.value }
  let data := if data.value.isNone then { data with value := data.insecureValue } else data
  if res.typ ≠ "SecureString" then { data with insecureValue := some res.value } else data

/-- Embeds `ParameterResource.Read` (src/unnamed/part_003:292-421).
`fetch` is the raw `GetParameter` result consumed by
`findParameterByName`; `describe` is the `DescribeParameters` result,
consumed only when the version changed and no directly-fetched field
did.  The cardinality guard `len == 0 || len > 1` is written as its
match-complement (a single-element list). -/
def ParameterResource.Read (prior : ParameterResourceModel)
    (fetch : Except GoErr GetParameterOutput)
    (describe : Except GoErr DescribeParametersOutput) : ReadResult :=
  match retryCall (findParameterByName fetch) with
  | .error e =>
    if tfresourceNotFound (some e) then
      { diags := [⟨.err, "parameter not found"⟩]
        state := some { prior with name := none }
        calls := [⟨.getParameter, true⟩] }
    else
      { diags := [⟨.err, "Client Error"⟩]
        state := none
        calls := [⟨.getParameter, true⟩] }
  | .ok res =>
    if res.version ≠ tfValueInt64 prior.version then
      if describeCondition prior res then
        match retryCall describe with
        | .error _ =>
          { diags := [⟨.warn, "Running DescribeParameter call"⟩,
                      ⟨.err, "Something went wrong while getting parameter metadata"⟩]
            state := none
            calls := [⟨.getParameter, true⟩, ⟨.describeParameters, true⟩] }
        | .ok md =>
          match md.parameters with
          | [m] =>
            { diags := [⟨.warn, "Running DescribeParameter call"⟩]
              state := some (readMergeFetched
                { prior with description := some (m.description.getD "") } res)
              calls := [⟨.getParameter, true⟩, ⟨.describeParameters, true⟩] }
          | _ =>
            { diags := [⟨.warn, "Running DescribeParameter call"⟩,
                        ⟨.err, "Incorrect response for parameter metadata"⟩]
              state := none
              calls := [⟨.getParameter, true⟩, ⟨.describeParameters, true⟩] }
      else
        { diags := []
          state := some (readMergeFetched prior res)
          calls := [⟨.getParameter, true⟩] }
    else
      { diags := []
        state := some (readMergeFetched prior res)
        calls := [⟨.getParameter, true⟩] }

/-- Outcome of a data-source Read / ephemeral Open. -/
structure DataSourceReadResult where
  diags : List Diagnostic
  state : Option ParameterDataSourceModel
  calls : List RemoteCall
deriving DecidableEq, Repr

/-- Embeds `ParameterDataSource.Read` (parameter_data_source.go:137-201).
The decryption preference does not influence the merged record shape and
is left to the oracle producing `fetch`. -/
def ParameterDataSource.Read (config : ParameterDataSourceModel)
    (fetch : Except GoErr GetParameterOutput) : DataSourceReadResult :=
  match retryCall (findParameterByName fetch) with
  | .error e =>
    if tfresourceNotFound (some e) then
      { diags := [⟨.err, "parameter not found"⟩]
        state := some { config with name := none }
        calls := [⟨.getParameter, true⟩] }
    else
      { diags := [⟨.err, "Client Error"⟩]
        state := none
        calls := [⟨.getParameter, true⟩] }
  | .ok res =>
    let data := { config with
      arn := some res.arn
      name := some res.name
      typ := some res.typ
      version := some res.version }
    let data := { data with value := some res.value }
    let data :=
      if config.insecureValue.isSome && res.typ ≠ "SecureString" then
        { data with insecureValue := some res.value }
      else data
    { diags := [], state := some data, calls := [⟨.getParameter, true⟩] }

/-- Embeds `ParameterEphemeral.Open` (parameter_data_source.go, ephemeral
section, lines 379-443): structurally identical to the data-source Read,
writing its record to the ephemeral Result. -/
def ParameterEphemeral.Open (config : ParameterEphemeralModel)
    (fetch : Except GoErr GetParameterOutput) : DataSourceReadResult :=
  match retryCall (findParameterByName fetch) with
  | .error e =>
    if tfresourceNotFound (some e) then
      { diags := [⟨.err, "parameter not found"⟩]
        state := some { config with name := none }
        calls := [⟨.getParameter, true⟩] }
    else
      { diags := [⟨.err, "Client Error"⟩]
        state := none
        calls := [⟨.getParameter, true⟩] }
  | .ok res =>
    let data := { config with
      arn := some res.arn
      name := some res.name
      typ := some res.typ
      version := some res.version }
    let data := { data with value := some res.value }
    let data :=
      if config.insecureValue.isSome && res.typ ≠ "SecureString" then
        { data with insecureValue := some res.value }
      else data
    { diags := [], state := some data, calls := [⟨.getParameter, true⟩] }

/-- The `PutParameterInput` built by Create (src/unnamed/part_003:216-234):
`Overwrite` is never set (stays the nil pointer, which the remote store
defaults to false); `Description` is set only when non-null, which
coincides with copying the optional field. -/
def createPutInput (data : ParameterResourceModel) : PutParameterInput :=
  { name := data.name
    value := some (tfValueString data.value)
    allowedPattern := data.allowedPattern
    typ := tfValueString data.typ
    dataType := data.dataType
    description := if data.description.isSome then data.description else none
    overwrite := none }

/-- The `PutParameterInput` built by Update (src/unnamed/part_003:435-449):
`Overwrite` is forced to true; `Description` is copied unconditionally
via `ValueStringPointer()` (null stays the nil pointer). -/
def updatePutInput (data : ParameterResourceModel) : PutParameterInput :=
  { name := data.name
    value := some (tfValueString data.value)
    allowedPattern := data.allowedPattern
    typ := tfValueString data.typ
    dataType := data.dataType
    description := data.description
    overwrite := some true }

/-- Outcome of Create or Update: diagnostics, the state written back,
the remote-call trace, and the `PutParameterInput` that was sent. -/
structure WriteResult where
  diags : List Diagnostic
  state : Option ParameterResourceModel
  calls : List RemoteCall
  sentPut : PutParameterInput
deriving DecidableEq, Repr

/-- Embeds `ParameterResource.Create` (src/unnamed/part_003:206-290).
The write goes through the retry loop; the read-back `GetParameter`
at lines 270-275 is issued directly on the client, outside any retry
loop.  `get` is the read-back parameter (the source dereferences
`get.Parameter` unconditionally on success). -/
def ParameterResource.Create (plan : ParameterResourceModel)
    (put : Except GoErr PutParameterOutput)
    (get : Except GoErr Parameter) : WriteResult :=
  let input := createPutInput plan
  match retryCall put with
  | .error _ =>
    { diags := [⟨.err, "SSM parameter create error"⟩]
      state := none
      calls := [⟨.putParameter, true⟩]
      sentPut := input }
  | .ok result =>
    let data := { plan with version := some result.version }
    match get with
    | .error _ =>
      { diags := [⟨.err, "parameter get failed"⟩]
        state := none
        calls := [⟨.putParameter, true⟩, ⟨.getParameter, false⟩]
        sentPut := input }
    | .ok g =>
      let data := { data with arn := some g.arn }
      let data := { data with insecureValue := none }
      let data := if g.typ ≠ "SecureString" then { data with insecureValue := data.value } else data
      { diags := []
        state := some data
        calls := [⟨.putParameter, true⟩, ⟨.getParameter, false⟩]
        sentPut := input }

/-- Embeds `ParameterResource.Update` (src/unnamed/part_003:423-520).
`insecure_value` is cleared up front and re-mirrored from the plan value
only for non-SecureString types; the write (overwrite forced true) and
the read-back fetch both go through the retry loop. -/
def ParameterResource.Update (plan : ParameterResourceModel)
    (put : Except GoErr PutParameterOutput)
    (get : Except GoErr GetParameterOutput) : WriteResult :=
  let data := { plan with insecureValue := none }
  let data :=
    if tfValueString data.typ ≠ "SecureString" then { data with insecureValue := data.value }
    else data
  let input := updatePutInput data
  match retryCall put with
  | .error _ =>
    { diags := [⟨.err, "SSM parameter update error"⟩]
      state := none
      calls := [⟨.putParameter, true⟩]
      sentPut := input }
  | .ok result =>
    let data := { data with version := some result.version }
    match retryCall (findParameterByName get) with
    | .error _ =>
      { diags := [⟨.err, "parameter get failed"⟩]
        state := none
        calls := [⟨.putParameter, true⟩, ⟨.getParameter, true⟩]
        sentPut := input }
    | .ok res =>
      { diags := []
        state := some { data with arn := some res.arn }
        calls := [⟨.putParameter, true⟩, ⟨.getParameter, true⟩]
        sentPut := input }

/-- Outcome of Delete: diagnostics and the remote-call trace (Delete
never writes state at this layer; the caller discards the record). -/
structure DeleteResult where
  diags : List Diagnostic
  calls : List RemoteCall
deriving DecidableEq, Repr

/-- Embeds `ParameterResource.Delete` (src/unnamed/part_003:522-557): one
retried `DeleteParameter` call; any terminal error — a remote not-found
included, nothing converts it — becomes a fatal "Client Error"
diagnostic. -/
def ParameterResource.Delete (_prior : ParameterResourceModel)
    (del : Except GoErr Unit) : DeleteResult :=
  match retryCall del with
  | .error _ => { diags := [⟨.err, "Client Error"⟩], calls := [⟨.deleteParameter, true⟩] }
  | .ok _ => { diags := [], calls := [⟨.deleteParameter, true⟩] }

/-- Models `strings.HasSuffix(s, suffix)`: true when the last `len(suffix)`
characters of `s` equal `suffix` (false when `s` is shorter). -/
def stringHasSuffix (s suffix : String) : Bool :=
  s.data.drop (s.data.length - suffix.data.length) == suffix.data

/-- A `MoveState` request (the framework delivers the already decoded
legacy record). -/
structure MoveStateRequest where
  sourceTypeName : String
  sourceSchemaVersion : Int
  sourceProviderAddress : String
  sourceState : AwsSSMParameterResourceModel
deriving DecidableEq, Repr

/-- A `MoveState` response: diagnostics and the target state (set only on
success). -/
structure MoveStateResponse where
  diags : List Diagnostic
  target : Option ParameterResourceModel
deriving DecidableEq, Repr

/-- Embeds the `StateMover` closure of `ParameterResource.MoveState`
(src/unnamed/part_003:571-632): three provenance checks in order, each
returning its own diagnostic before any field is copied; on success a
fixed field subset is copied (`InsecureValue` is deliberately not,
per the commented-out line 620, so it defaults to null). -/
def ParameterResource.MoveState (req : MoveStateRequest) : MoveStateResponse :=
  if req.sourceTypeName ≠ "aws_ssm_parameter" then
    { diags := [⟨.err, "Source schema name type mismatch"⟩], target := none }
  else if req.sourceSchemaVersion ≠ 0 then
    { diags := [⟨.err, "Source schema version mismatch"⟩], target := none }
  else if ¬ stringHasSuffix req.sourceProviderAddress "hashicorp/aws" then
    { diags := [⟨.err, "Source provider unsupported"⟩], target := none }
  else
    let s := req.sourceState
    { diags := []
      target := some
        { allowedPattern := s.allowedPattern
          arn := s.arn
          dataType := s.dataType
          description := s.description
          name := s.name
          overwrite := s.overwrite
          tags := s.tags
          typ := s.typ
          value := s.value
          version := s.version
          insecureValue := none } }

/-- Outcome of the legacy Read's describe-merge step.  `panicked` marks a
nil-pointer dereference aborting the process. -/
inductive LegacyMergeOutcome where
  | errDiag (d : Diagnostic)
  | panicked
  | merged (description : String)
deriving DecidableEq, Repr

/-- Embeds the describe-merge of the legacy resource Read
(src/internal/provider/parameter_resource.go:340-349): after the
cardinality guard, line 349 reads `*descParams.Parameters[0].Description`
without a nil check, so a single metadata record carrying no description
dereferences a nil pointer — a runtime panic. -/
def legacyDescribeMerge (descParams : DescribeParametersOutput) : LegacyMergeOutcome :=
  match descParams.parameters with
  | [m] =>
    match m.description with
    | none => .panicked
    | some d => .merged d
  | _ => .errDiag ⟨.err, "Incorrect response for parameter metadata"⟩

/-! ## Theorems -/

/-- Auxiliary: the classifier on a non-nil error is the Boolean formula
over the two `errors.As` traversals that the code's control flow
computes. -/
theorem isRetryableError_some (e : GoErr) :
    isRetryableError (some e) =
      ((e.asAPIErrorCode == some "ThrottlingException") || e.isQuotaExceeded) := by
  unfold isRetryableError
  cases h : e.asAPIErrorCode with
  | none => simp [h]
  | some c =>
    by_cases hc : c = "ThrottlingException" <;> simp [h, hc]

/-- C5: `isRetryableError` returns true iff the error is (or wraps) a
structured API error whose code equals "ThrottlingException" or is (or
wraps) the local token-bucket quota-exceeded error; every other error,
and a nil error, is non-retryable. -/
theorem c5_classifier_retryable_iff (e : Option GoErr) :
    isRetryableError e = true ↔ retryableSpec e := by
  cases e with
  | none => simp [isRetryableError, retryableSpec]
  | some err =>
    rw [isRetryableError_some]
    induction err with
    | apiErr c =>
      simp only [GoErr.asAPIErrorCode, GoErr.isQuotaExceeded, retryableSpec, GoErr.chain,
        List.mem_singleton, Bool.or_false, beq_iff_eq, Option.some.injEq, GoErr.apiErr.injEq]
      constructor
      · intro h
        exact Or.inl h.symm
      · intro h
        rcases h with h | h
        · exact h.symm
        · exact absurd h (by simp)
    | quotaExceeded =>
      simp [GoErr.asAPIErrorCode, GoErr.isQuotaExceeded, retryableSpec, GoErr.chain]
    | nfErr =>
      simp [GoErr.asAPIErrorCode, GoErr.isQuotaExceeded, retryableSpec, GoErr.chain]
    | emptyResultErr =>
      simp [GoErr.asAPIErrorCode, GoErr.isQuotaExceeded, retryableSpec, GoErr.chain]
    | timeoutErr inner ih =>
      simp only [GoErr.asAPIErrorCode, GoErr.isQuotaExceeded, retryableSpec, GoErr.chain,
        List.mem_cons] at *
      simpa using ih
    | wrapErr msg inner ih =>
      simp only [GoErr.asAPIErrorCode, GoErr.isQuotaExceeded, retryableSpec, GoErr.chain,
        List.mem_cons] at *
      simpa using ih
    | otherErr msg =>
      simp [GoErr.asAPIErrorCode, GoErr.isQuotaExceeded, retryableSpec, GoErr.chain]

/-- Auxiliary: the Boolean describe guard unfolded into the conjunction
of field equalities it computes. -/
theorem describeCondition_eq_true_iff (data : ParameterResourceModel) (res : Parameter) :
    describeCondition data res = true ↔
      (tfValueString data.name = res.name ∧ tfValueString data.typ = res.typ ∧
       tfValueString data.dataType = res.dataType ∧ tfValueString data.value = res.value) := by
  simp [describeCondition, Bool.and_eq_true, and_assoc]

/-- C1: On a Read of an existing parameter with prior local state (the
fetch succeeds with parameter `res`), the DescribeParameters enumeration
is issued — exactly once — iff the fetched version differs from the
locally stored version and every directly-fetched field (name, type,
dataType, value) equals the local record's field; when it is issued, only
its description is merged into the local record (everything else of the
final record comes from the fetch and the prior state). -/
theorem c1_enumeration_iff (prior : ParameterResourceModel) (res : Parameter)
    (md : ParameterMetadata) :
    (ParameterResource.Read prior (.ok ⟨some res⟩) (.ok ⟨[md]⟩)).calls =
      ⟨.getParameter, true⟩ ::
        (if res.version ≠ tfValueInt64 prior.version
            ∧ tfValueString prior.name = res.name
            ∧ tfValueString prior.typ = res.typ
            ∧ tfValueString prior.dataType = res.dataType
            ∧ tfValueString prior.value = res.value
         then [⟨.describeParameters, true⟩] else []) ∧
    (ParameterResource.Read prior (.ok ⟨some res⟩) (.ok ⟨[md]⟩)).state =
      some (readMergeFetched
        (if res.version ≠ tfValueInt64 prior.version
            ∧ tfValueString prior.name = res.name
            ∧ tfValueString prior.typ = res.typ
            ∧ tfValueString prior.dataType = res.dataType
            ∧ tfValueString prior.value = res.value
         then { prior with description := some (md.description.getD "") }
         else prior) res) := by
  by_cases hv : res.version = tfValueInt64 prior.version
  · simp [ParameterResource.Read, findParameterByName, retryCall, hv]
  · by_cases hc : describeCondition prior res
    · have hfields := (describeCondition_eq_true_iff prior res).mp hc
      simp [ParameterResource.Read, findParameterByName, retryCall, hv, hc, hfields]
    · have hnf : ¬(tfValueString prior.name = res.name ∧ tfValueString prior.typ = res.typ ∧
          tfValueString prior.dataType = res.dataType ∧ tfValueString prior.value = res.value) :=
        fun h => hc ((describeCondition_eq_true_iff prior res).mpr h)
      have hcond : ¬(res.version ≠ tfValueInt64 prior.version ∧
          tfValueString prior.name = res.name ∧ tfValueString prior.typ = res.typ ∧
          tfValueString prior.dataType = res.dataType ∧ tfValueString prior.value = res.value) :=
        fun h => hnf h.2
      rw [if_neg hcond, if_neg hcond]
      simp [ParameterResource.Read, findParameterByName, retryCall, hv, hc]

/-- Auxiliary: the value routing performed by the resource Read's merge
step — `value` always carries the fetched value, `insecure_value` mirrors
it exactly for non-SecureString types and is otherwise left as it was. -/
theorem readMergeFetched_routing (data : ParameterResourceModel) (res : Parameter) :
    (readMergeFetched data res).value = some res.value ∧
    (readMergeFetched data res).insecureValue =
      (if res.typ ≠ "SecureString" then some res.value else data.insecureValue) := by
  unfold readMergeFetched
  split <;> simp_all

/-- C2 counterexample: a successful resource-Read fetch of a plain
`String` parameter (same version, so no enumeration interplay) produces a
record in which `value` and `insecure_value` are BOTH populated — the
claimed mutual exclusion does not hold on the read path. -/
theorem c2_counterexample :
    ∃ d, (ParameterResource.Read
        { name := some "n", typ := some "String", dataType := some "text",
          value := some "old", version := some 3 }
        (.ok ⟨some { arn := "arn:p", name := "n", typ := "String", version := 3,
                     value := "v", dataType := "text" }⟩)
        (.ok ⟨[]⟩)).state = some d ∧
      d.typ = some "String" ∧ d.value = some "v" ∧ d.insecureValue = some "v" := by
  exact ⟨_, rfl, rfl, rfl, rfl⟩

/-- C2 amended: after every successful read-path fetch, `value` is always
populated with the fetched value (whatever the value kind); on the
resource Read, `insecure_value` is additionally populated with the same
fetched value exactly when the remote type is not SecureString (and
retains its prior content otherwise); on the data-source Read and
ephemeral Open, `insecure_value` is re-populated only when it was already
non-null and the type is not SecureString.  Hence both fields are
populated simultaneously on every non-SecureString resource read, and
`value`, not `insecure_value`, is the field a plain-text fetch fills. -/
theorem c2_amended_value_routing :
    (∀ (prior : ParameterResourceModel) (res : Parameter)
        (describe : Except GoErr DescribeParametersOutput) (d : ParameterResourceModel),
      (ParameterResource.Read prior (.ok ⟨some res⟩) describe).state = some d →
        d.value = some res.value ∧
        d.insecureValue =
          (if res.typ ≠ "SecureString" then some res.value else prior.insecureValue)) ∧
    (∀ (config : ParameterDataSourceModel) (res : Parameter) (d : ParameterDataSourceModel),
      (ParameterDataSource.Read config (.ok ⟨some res⟩)).state = some d →
        d.value = some res.value ∧
        d.insecureValue =
          (if config.insecureValue.isSome ∧ res.typ ≠ "SecureString"
           then some res.value else config.insecureValue)) ∧
    (∀ (config : ParameterEphemeralModel) (res : Parameter) (d : ParameterDataSourceModel),
      (ParameterEphemeral.Open config (.ok ⟨some res⟩)).state = some d →
        d.value = some res.value ∧
        d.insecureValue =
          (if config.insecureValue.isSome ∧ res.typ ≠ "SecureString"
           then some res.value else config.insecureValue)) := by
  refine ⟨?_, ?_, ?_⟩
  · intro prior res describe d h
    simp only [ParameterResource.Read, findParameterByName, retryCall] at h
    split at h
    · split at h
      · split at h
        · exact absurd h (by simp)
        · split at h
          · rename_i m heq
            simp only [Option.some.injEq] at h
            subst h
            exact readMergeFetched_routing _ res
          · exact absurd h (by simp)
      · simp only [Option.some.injEq] at h
        subst h
        exact readMergeFetched_routing _ res
    · simp only [Option.some.injEq] at h
      subst h
      exact readMergeFetched_routing _ res
  · intro config res d h
    simp only [ParameterDataSource.Read, findParameterByName, retryCall,
      Option.some.injEq] at h
    subst h
    by_cases hins : config.insecureValue.isSome <;>
      by_cases ht : res.typ = "SecureString" <;>
        simp [hins, ht]
  · intro config res d h
    simp only [ParameterEphemeral.Open, findParameterByName, retryCall,
      Option.some.injEq] at h
    subst h
    by_cases hins : config.insecureValue.isSome <;>
      by_cases ht : res.typ = "SecureString" <;>
        simp [hins, ht]

/-- Witness for the C2 amended theorem at a concrete input (plain String
parameter fetched into an empty prior record). -/
theorem c2_amended_value_routing_witness :
    (readMergeFetched {}
        { arn := "a", name := "n", typ := "String", version := 1,
          value := "w", dataType := "text" }).value = some "w" ∧
    (readMergeFetched {}
        { arn := "a", name := "n", typ := "String", version := 1,
          value := "w", dataType := "text" }).insecureValue = some "w" := by
  have h := c2_amended_value_routing.1 {}
      { arn := "a", name := "n", typ := "String", version := 1, value := "w", dataType := "text" }
      (.ok ⟨[]⟩)
      (readMergeFetched {}
        { arn := "a", name := "n", typ := "String", version := 1,
          value := "w", dataType := "text" }) rfl
  simpa using h

/-- C3 counterexample: a NotFound during a resource Read does clear the
name and does write the state, but the diagnostic it emits is of ERROR
severity (`AddError`, src/unnamed/part_003:328) — a fatal diagnostic, not
an advisory one, so the Read does end in a fatal error. -/
theorem c3_counterexample :
    (ParameterResource.Read { name := some "n" } (.error (.apiErr "ParameterNotFound"))
        (.ok ⟨[]⟩)).diags = [⟨Severity.err, "parameter not found"⟩] ∧
    (ParameterResource.Read { name := some "n" } (.error (.apiErr "ParameterNotFound"))
        (.ok ⟨[]⟩)).state = some { name := none } := by
  exact ⟨rfl, rfl⟩

/-- C3 amended: whenever the fetch normalizes to the distinguished
not-found kind (`retry.NotFoundError` from the remote ParameterNotFound,
or the narrower `EmptyResultError` converted at the gateway boundary),
the resource Read and the data-source Read clear the local name and emit
one ERROR-severity "parameter not found" diagnostic while still writing
the cleared state; a failure of the fetch used by update's (and
create's) read-back is a hard error ("parameter get failed") with no
state written. -/
theorem c3_amended_notfound_handling :
    (∀ (prior : ParameterResourceModel) (describe : Except GoErr DescribeParametersOutput)
        (fetch : Except GoErr GetParameterOutput),
      (findParameterByName fetch = .error .nfErr ∨
       findParameterByName fetch = .error .emptyResultErr) →
      (ParameterResource.Read prior fetch describe).diags =
          [⟨.err, "parameter not found"⟩] ∧
      (ParameterResource.Read prior fetch describe).state =
          some { prior with name := none }) ∧
    (∀ (config : ParameterDataSourceModel) (fetch : Except GoErr GetParameterOutput),
      (findParameterByName fetch = .error .nfErr ∨
       findParameterByName fetch = .error .emptyResultErr) →
      (ParameterDataSource.Read config fetch).diags =
          [⟨.err, "parameter not found"⟩] ∧
      (ParameterDataSource.Read config fetch).state =
          some { config with name := none }) ∧
    (∀ (plan : ParameterResourceModel) (v : PutParameterOutput)
        (get : Except GoErr GetParameterOutput),
      (findParameterByName get = .error .nfErr ∨
       findParameterByName get = .error .emptyResultErr) →
      (ParameterResource.Update plan (.ok v) get).diags =
          [⟨.err, "parameter get failed"⟩] ∧
      (ParameterResource.Update plan (.ok v) get).state = none) ∧
    (∀ (plan : ParameterResourceModel) (v : PutParameterOutput) (e : GoErr),
      (ParameterResource.Create plan (.ok v) (.error e)).diags =
          [⟨.err, "parameter get failed"⟩] ∧
      (ParameterResource.Create plan (.ok v) (.error e)).state = none) := by
  refine ⟨?_, ?_, ?_, ?_⟩
  · intro prior describe fetch h
    rcases h with h | h <;>
      simp [ParameterResource.Read, h, retryCall, isRetryableError, tfresourceNotFound,
        GoErr.isNotFoundKind, GoErr.asAPIErrorCode, GoErr.isQuotaExceeded]
  · intro config fetch h
    rcases h with h | h <;>
      simp [ParameterDataSource.Read, h, retryCall, isRetryableError, tfresourceNotFound,
        GoErr.isNotFoundKind, GoErr.asAPIErrorCode, GoErr.isQuotaExceeded]
  · intro plan v get h
    rcases h with h | h <;>
      simp [ParameterResource.Update, h, retryCall, isRetryableError,
        GoErr.asAPIErrorCode, GoErr.isQuotaExceeded]
  · intro plan v e
    simp [ParameterResource.Create, retryCall]

/-- Witness for the C3 amended theorem at a concrete input.  The remote
store reports ParameterNotFound; the data-source Read clears the name and
emits the error-severity diagnostic. -/
theorem c3_amended_notfound_handling_witness :
    (ParameterDataSource.Read { name := some "x" }
        (.error (.apiErr "ParameterNotFound"))).diags =
      [⟨Severity.err, "parameter not found"⟩] ∧
    (ParameterDataSource.Read { name := some "x" }
        (.error (.apiErr "ParameterNotFound"))).state = some { name := none } := by
  have h := c3_amended_notfound_handling.2.1 { name := some "x" }
      (.error (.apiErr "ParameterNotFound")) (Or.inl rfl)
  exact h

/-- C4 counterexample: Delete on a name that no longer exists remote-side
(the remote store reports ParameterNotFound) escalates the not-found to a
fatal "Client Error" diagnostic — it is not treated as the delete's own
no-op success, so the claimed idempotence fails. -/
theorem c4_counterexample :
    (ParameterResource.Delete { name := some "n" }
        (.error (.apiErr "ParameterNotFound"))).diags =
      [⟨Severity.err, "Client Error"⟩] := rfl

/-- C4 amended: at this layer Delete reports no diagnostic iff the remote
delete call succeeds; every terminal failure — a remote not-found
included, nothing converts it — becomes the fatal "Client Error"
diagnostic, so deleting an already-absent name errors rather than
succeeding idempotently. -/
theorem c4_amended_delete_error_iff (prior : ParameterResourceModel)
    (del : Except GoErr Unit) :
    (ParameterResource.Delete prior del).diags = [] ↔ del = .ok () := by
  cases del with
  | ok u =>
    cases u
    simp [ParameterResource.Delete, retryCall]
  | error e =>
    by_cases h : isRetryableError (some e) <;>
      simp [ParameterResource.Delete, retryCall, h]

/-- C6: the three MoveState provenance checks fire in order — wrong
source type name, then wrong schema version, then wrong provider address
suffix — each independently triggerable, each yielding its own distinct
diagnostic with no field of the source state copied (target absent); when
all three pass, the fixed field subset is copied into the target record
(with `insecure_value` deliberately left null). -/
theorem c6_movestate_preconditions (req : MoveStateRequest) :
    (req.sourceTypeName ≠ "aws_ssm_parameter" →
      ParameterResource.MoveState req =
        { diags := [⟨.err, "Source schema name type mismatch"⟩], target := none }) ∧
    (req.sourceTypeName = "aws_ssm_parameter" → req.sourceSchemaVersion ≠ 0 →
      ParameterResource.MoveState req =
        { diags := [⟨.err, "Source schema version mismatch"⟩], target := none }) ∧
    (req.sourceTypeName = "aws_ssm_parameter" → req.sourceSchemaVersion = 0 →
      stringHasSuffix req.sourceProviderAddress "hashicorp/aws" = false →
      ParameterResource.MoveState req =
        { diags := [⟨.err, "Source provider unsupported"⟩], target := none }) ∧
    (req.sourceTypeName = "aws_ssm_parameter" → req.sourceSchemaVersion = 0 →
      stringHasSuffix req.sourceProviderAddress "hashicorp/aws" = true →
      ParameterResource.MoveState req =
        { diags := []
          target := some
            { allowedPattern := req.sourceState.allowedPattern
              arn := req.sourceState.arn
              dataType := req.sourceState.dataType
              description := req.sourceState.description
              name := req.sourceState.name
              overwrite := req.sourceState.overwrite
              tags := req.sourceState.tags
              typ := req.sourceState.typ
              value := req.sourceState.value
              version := req.sourceState.version
              insecureValue := none } }) := by
  refine ⟨?_, ?_, ?_, ?_⟩
  · intro h1
    simp [ParameterResource.MoveState, h1]
  · intro h1 h2
    simp [ParameterResource.MoveState, h1, h2]
  · intro h1 h2 h3
    simp [ParameterResource.MoveState, h1, h2, h3]
  · intro h1 h2 h3
    simp [ParameterResource.MoveState, h1, h2, h3]

/-- Witness for C6: all four branches exercised at concrete requests
(wrong type name, wrong schema version, wrong provider address, and a
fully valid request whose name is copied through). -/
theorem c6_movestate_preconditions_witness :
    ParameterResource.MoveState
        ⟨"bogus_type", 0, "registry.terraform.io/hashicorp/aws", {}⟩ =
      { diags := [⟨Severity.err, "Source schema name type mismatch"⟩], target := none } ∧
    ParameterResource.MoveState
        ⟨"aws_ssm_parameter", 1, "registry.terraform.io/hashicorp/aws", {}⟩ =
      { diags := [⟨Severity.err, "Source schema version mismatch"⟩], target := none } ∧
    ParameterResource.MoveState
        ⟨"aws_ssm_parameter", 0, "registry.terraform.io/hashicorp/google", {}⟩ =
      { diags := [⟨Severity.err, "Source provider unsupported"⟩], target := none } ∧
    ParameterResource.MoveState
        ⟨"aws_ssm_parameter", 0, "registry.terraform.io/hashicorp/aws",
          { name := some "p" }⟩ =
      { diags := [], target := some { name := some "p", insecureValue := none } } := by
  refine ⟨?_, ?_, ?_, ?_⟩
  · exact (c6_movestate_preconditions _).1 (by decide)
  · exact (c6_movestate_preconditions _).2.1 rfl (by decide)
  · exact (c6_movestate_preconditions _).2.2.1 rfl rfl (by decide)
  · exact (c6_movestate_preconditions _).2.2.2 rfl rfl (by decide)

/-- C7: Create sends the remote write with the Overwrite flag unset (the
nil pointer, which the remote store defaults to false); Update forces
Overwrite to true.  This holds on every code path (error paths
included), since the input is built before the call is issued. -/
theorem c7_overwrite_policy (plan : ParameterResourceModel)
    (put : Except GoErr PutParameterOutput) (getC : Except GoErr Parameter)
    (getU : Except GoErr GetParameterOutput) :
    (ParameterResource.Create plan put getC).sentPut.overwrite = none ∧
    (ParameterResource.Update plan put getU).sentPut.overwrite = some true := by
  constructor
  · unfold ParameterResource.Create
    split
    · rfl
    · split <;> rfl
  · unfold ParameterResource.Update
    split
    · rfl
    · split <;> rfl

/-- C8 counterexample: Create's read-back GetParameter
(src/unnamed/part_003:270-275) is issued directly on the client, outside
any retry loop — so it is not the case that every remote call goes
through the Retry Executor with the Failure Classifier. -/
theorem c8_counterexample :
    (⟨RemoteOp.getParameter, false⟩ : RemoteCall) ∈
      (ParameterResource.Create { name := some "n", typ := some "String", value := some "v" }
        (.ok ⟨1⟩)
        (.ok { arn := "a", name := "n", typ := "String", version := 1, value := "v",
               dataType := "text" })).calls := by
  simp [ParameterResource.Create, retryCall]

/-- C8 amended: every remote call issued by Read, Update, Delete, the
data-source Read and the ephemeral Open goes through the retry loop with
`isRetryableError` as the policy, as does Create's PutParameter; the one
exception is Create's post-write read-back GetParameter, which is issued
directly (its trace entry is the only one with `retried = false`). -/
theorem c8_amended_retry_coverage :
    (∀ (prior : ParameterResourceModel) (fetch : Except GoErr GetParameterOutput)
        (describe : Except GoErr DescribeParametersOutput),
      (ParameterResource.Read prior fetch describe).calls.all (fun c => c.retried) = true) ∧
    (∀ (plan : ParameterResourceModel) (put : Except GoErr PutParameterOutput)
        (get : Except GoErr GetParameterOutput),
      (ParameterResource.Update plan put get).calls.all (fun c => c.retried) = true) ∧
    (∀ (prior : ParameterResourceModel) (del : Except GoErr Unit),
      (ParameterResource.Delete prior del).calls.all (fun c => c.retried) = true) ∧
    (∀ (config : ParameterDataSourceModel) (fetch : Except GoErr GetParameterOutput),
      (ParameterDataSource.Read config fetch).calls.all (fun c => c.retried) = true) ∧
    (∀ (config : ParameterEphemeralModel) (fetch : Except GoErr GetParameterOutput),
      (ParameterEphemeral.Open config fetch).calls.all (fun c => c.retried) = true) ∧
    (∀ (plan : ParameterResourceModel) (put : Except GoErr PutParameterOutput)
        (get : Except GoErr Parameter),
      (ParameterResource.Create plan put get).calls.all
          (fun c => c.retried == (c.op == RemoteOp.putParameter)) = true) := by
  refine ⟨?_, ?_, ?_, ?_, ?_, ?_⟩
  · intro prior fetch describe
    unfold ParameterResource.Read
    repeat' split
    all_goals rfl
  · intro plan put get
    unfold ParameterResource.Update
    repeat' split
    all_goals rfl
  · intro prior del
    unfold ParameterResource.Delete
    repeat' split
    all_goals rfl
  · intro config fetch
    unfold ParameterDataSource.Read
    repeat' split
    all_goals rfl
  · intro config fetch
    unfold ParameterEphemeral.Open
    repeat' split
    all_goals rfl
  · intro plan put get
    unfold ParameterResource.Create
    repeat' split
    all_goals rfl

/-- C9: an Update of a SecureString (Encrypted) record never populates
`insecure_value` — whatever state the Update writes has `insecure_value`
null, regardless of what the prior/plan record held there
(src/unnamed/part_003:429-433 clears it before the routing check, whose
non-SecureString branch is not taken). -/
theorem c9_securestring_update_clears_insecure (plan : ParameterResourceModel)
    (put : Except GoErr PutParameterOutput) (get : Except GoErr GetParameterOutput)
    (d : ParameterResourceModel)
    (htyp : plan.typ = some "SecureString")
    (h : (ParameterResource.Update plan put get).state = some d) :
    d.insecureValue = none := by
  unfold ParameterResource.Update at h
  rw [htyp] at h
  simp only [tfValueString, Option.getD] at h
  split at h
  · exact absurd h (by simp)
  · split at h
    · exact absurd h (by simp)
    · simp only [Option.some.injEq] at h
      subst h
      simp at *

/-- Witness for C9 at a concrete input: updating a SecureString record
whose plan still carried a stale `insecure_value` yields a state with
`insecure_value` null. -/
theorem c9_securestring_update_clears_insecure_witness :
    (ParameterResource.Update
        { name := some "n", typ := some "SecureString", value := some "v",
          insecureValue := some "stale" }
        (.ok ⟨2⟩)
        (.ok ⟨some { arn := "a", name := "n", typ := "SecureString", version := 2,
                     value := "v", dataType := "text" }⟩)).state =
      some
        { name := some "n", typ := some "SecureString", value := some "v",
          insecureValue := none, version := some 2, arn := some "a" } ∧
    ({ name := some "n", typ := some "SecureString", value := some "v",
       insecureValue := none, version := some 2, arn := some "a" } :
        ParameterResourceModel).insecureValue = none := by
  constructor
  · rfl
  · exact c9_securestring_update_clears_insecure
      { name := some "n", typ := some "SecureString", value := some "v",
        insecureValue := some "stale" }
      (.ok ⟨2⟩)
      (.ok ⟨some { arn := "a", name := "n", typ := "SecureString", version := 2,
                   value := "v", dataType := "text" }⟩)
      { name := some "n", typ := some "SecureString", value := some "v",
        insecureValue := none, version := some 2, arn := some "a" }
      rfl rfl

/-- C10, evaluated at the failing input: when the enumeration returns a
single metadata record carrying no description, the legacy Read
(src/internal/provider/parameter_resource.go:349) dereferences the nil
Description pointer — a process-aborting panic — while the current Read
(src/unnamed/part_003:385-389) defaults the description to the empty
string and completes normally, as the claim states. -/
theorem c10_nil_description_panic_vs_default :
    legacyDescribeMerge ⟨[⟨none⟩]⟩ = LegacyMergeOutcome.panicked ∧
    ∃ d, (ParameterResource.Read
        { name := some "n", typ := some "String", dataType := some "text",
          value := some "v", version := some 1 }
        (.ok ⟨some { arn := "a", name := "n", typ := "String", version := 2,
                     value := "v", dataType := "text" }⟩)
        (.ok ⟨[⟨none⟩]⟩)).state = some d ∧
      d.description = some "" := by
  exact ⟨rfl, _, rfl, rfl⟩

end FastSSM

